import Mathlib

/-
Shallow embedding of the slash-command and guild-scheduled-event code of the
repository (src/discord/ext/commands/commands.py, src/discord/scheduled_events.py,
src/discord/guild_event.py, src/discord/mentionable.py, src/discord/types/guild_event.py).

Modelling conventions:
  - JSON values and Python dicts decoded from JSON are the inductive Json below;
    a dict is an association list in insertion order with unique keys, and
    assignment d[k] = v updates the first entry with key k in place or appends.
  - Python exceptions that the modelled code can raise (KeyError, TypeError,
    ValueError, AttributeError) are the error side of Except PyErr.
  - Machine floats are modelled as rationals: no modelled claim performs float
    arithmetic or depends on rounding, only on which coercion is applied.
  - The enum classes are modelled by their integer wire values.  Both the
    standard-library Enum and the discord.py Enum (discord/enums.py) turn a
    member whose value repeats an earlier member into an alias of that member,
    so member equality is equality of wire values; ApplicationCommandOptionType
    is therefore embedded as plain Nat wire values (the source assigns
    MENTIONABLE = 8, the same value as ROLE).
  - datetime objects are opaque wrappers of their ISO-8601 text; the validity
    of the textual format is outside the model (no claim depends on it).
-/

/-- JSON values as Discord request and response bodies carry them. -/
inductive Json where
  | str (s : String)
  | int (n : Int)
  | bool (b : Bool)
  | null
  | obj (fields : List (String × Json))

/-- Python dict lookup d.get(k): the value of the first entry with key k. -/
def dictGet? {α : Type} : List (String × α) → String → Option α
  | [], _ => none
  | (k1, v1) :: rest, k => if k1 = k then some v1 else dictGet? rest k

/-- Python dict assignment d[k] = v: update the entry with key k in place,
keeping its position, or append a new entry. -/
def dictSet {α : Type} : List (String × α) → String → α → List (String × α)
  | [], k, v => [(k, v)]
  | (k1, v1) :: rest, k, v =>
      if k1 = k then (k, v) :: rest else (k1, v1) :: dictSet rest k v

/-- Removal of a key, used only to build test payloads that lack it. -/
def dictErase {α : Type} (d : List (String × α)) (k : String) : List (String × α) :=
  d.filter (fun p => p.1 != k)

/-- The Python exceptions the modelled code can raise. -/
inductive PyErr where
  | keyError (k : String)
  | typeError
  | valueError
  | attributeError
deriving DecidableEq

/-- Raw option values as an interaction payload delivers them
(JSON scalars: text, integer, float, boolean). -/
inductive RawValue where
  | str (s : String)
  | int (n : Int)
  | float (q : Rat)
  | bool (b : Bool)
deriving DecidableEq

/-- Digits of a decimal literal folded to the number they spell. -/
def natOfDigits (l : List Char) : Nat :=
  l.foldl (fun a c => a * 10 + (c.toNat - 48)) 0

/-- Python int(s) on text: an optional minus sign then one or more digits.
(Surrounding whitespace, an optional plus sign and underscore separators are
accepted by Python as well; no claim depends on them.) -/
def parsePyInt? (s : String) : Option Int :=
  match s.toList with
  | [] => none
  | '-' :: rest =>
      if rest ≠ [] ∧ rest.all Char.isDigit then some (-(natOfDigits rest : Int)) else none
  | l =>
      if l.all Char.isDigit then some ((natOfDigits l : Int)) else none

/-- Decimal part of Python float(s): digits, optionally digits.digits. -/
def parseDec? (l : List Char) : Option Rat :=
  match l.span Char.isDigit with
  | (ip, []) => if ip = [] then none else some ((natOfDigits ip : Rat))
  | (ip, '.' :: fp) =>
      if fp.all Char.isDigit ∧ ¬(ip = [] ∧ fp = []) then
        some ((natOfDigits ip : Rat) + (natOfDigits fp : Rat) / ((10 : Rat) ^ fp.length))
      else none
  | _ => none

/-- Python float(s) on text: an optional minus sign then a decimal literal.
(Exponent and special forms are out of scope; no claim depends on them.) -/
def parsePyFloat? (s : String) : Option Rat :=
  match s.toList with
  | '-' :: rest => (parseDec? rest).map Neg.neg
  | l => parseDec? l

/-- Python str() applied to a raw scalar.  (The exact textual rendering of a
float is not modelled precisely; no claim depends on it.) -/
def pyStrOf : RawValue → String
  | .str s => s
  | .int n => toString n
  | .float q => toString q
  | .bool b => if b then "True" else "False"

/-- Python bool() truthiness on a raw scalar: false exactly for the empty
string, numeric zero and False. -/
def pyTruth : RawValue → Bool
  | .str s => decide (s ≠ "")
  | .int n => decide (n ≠ 0)
  | .float q => decide (q ≠ 0)
  | .bool b => b

/-- Python int() on a raw scalar: text is parsed or raises ValueError, a float
is truncated toward zero, a boolean maps to 0 or 1. -/
def pyIntOf : RawValue → Except PyErr Int
  | .str s => match parsePyInt? s with
      | some n => .ok n
      | none => .error .valueError
  | .int n => .ok n
  | .float q => .ok (Int.tdiv q.num q.den)
  | .bool b => .ok (if b then 1 else 0)

/-- Python float() on a raw scalar. -/
def pyFloatOf : RawValue → Except PyErr Rat
  | .str s => match parsePyFloat? s with
      | some q => .ok q
      | none => .error .valueError
  | .int n => .ok ((n : Rat))
  | .float q => .ok q
  | .bool b => .ok (if b then 1 else 0)

/-- ApplicationCommandOptionType members are carried by their integer wire
values (see the conventions above: duplicate-valued members alias). -/
abbrev ApplicationCommandOptionType := Nat

def ApplicationCommandOptionType.SUB_COMMAND : Nat := 1

def ApplicationCommandOptionType.SUB_COMMAND_GROUP : Nat := 2

def ApplicationCommandOptionType.STRING : Nat := 3

def ApplicationCommandOptionType.INTEGER : Nat := 4

def ApplicationCommandOptionType.BOOLEAN : Nat := 5

def ApplicationCommandOptionType.USER : Nat := 6

def ApplicationCommandOptionType.CHANNEL : Nat := 7

def ApplicationCommandOptionType.ROLE : Nat := 8

/-- The source assigns MENTIONABLE the wire value 8, the same as ROLE. -/
def ApplicationCommandOptionType.MENTIONABLE : Nat := 8

def ApplicationCommandOptionType.NUMBER : Nat := 10

/-- The wire values of the enum members, in declaration order. -/
def optionTypeWireValues : List Nat :=
  [ApplicationCommandOptionType.SUB_COMMAND,
   ApplicationCommandOptionType.SUB_COMMAND_GROUP,
   ApplicationCommandOptionType.STRING,
   ApplicationCommandOptionType.INTEGER,
   ApplicationCommandOptionType.BOOLEAN,
   ApplicationCommandOptionType.USER,
   ApplicationCommandOptionType.CHANNEL,
   ApplicationCommandOptionType.ROLE,
   ApplicationCommandOptionType.MENTIONABLE,
   ApplicationCommandOptionType.NUMBER]

/-- A cached guild member, identified by its snowflake. -/
structure MemberEntity where
  id : Int
deriving DecidableEq

/-- A cached guild channel. -/
structure ChannelEntity where
  id : Int
deriving DecidableEq

/-- A cached guild role. -/
structure RoleEntity where
  id : Int
deriving DecidableEq

/-- The external entity resolver: interaction.guild with its get_member,
get_channel and get_role lookups (cache lookups that may miss). -/
structure Guild where
  members : Int → Option MemberEntity
  channels : Int → Option ChannelEntity
  roles : Int → Option RoleEntity

/-- The heterogeneous results ApplicationCommandOption.value can return:
Python None, a coerced scalar, a cache entity, or the untouched raw value. -/
inductive Resolved where
  | pyNone
  | str (s : String)
  | float (q : Rat)
  | bool (b : Bool)
  | int (n : Int)
  | member (m : MemberEntity)
  | channel (c : ChannelEntity)
  | role (r : RoleEntity)
  | raw (v : RawValue)
deriving DecidableEq

/-- guild.get_member(n) as the value function returns it: the member, or None
on a cache miss. -/
def memberResolved : Option MemberEntity → Resolved
  | some m => .member m
  | none => .pyNone

def channelResolved : Option ChannelEntity → Resolved
  | some c => .channel c
  | none => .pyNone

def roleResolved : Option RoleEntity → Resolved
  | some r => .role r
  | none => .pyNone

/-- ApplicationCommandOptionChoice: a display name and a literal value. -/
structure ApplicationCommandOptionChoice where
  name : String
  value : RawValue
deriving DecidableEq

/-- ApplicationCommandOption (commands.py lines 116-128).  The options and
channel_types fields are omitted: no modelled operation or claim reads them. -/
structure ApplicationCommandOption where
  type : ApplicationCommandOptionType
  name : String
  description : Option String
  required : Bool
  choices : Option (List ApplicationCommandOptionChoice)
  min_value : Option Int
  max_value : Option Int
  default_value : Resolved
deriving DecidableEq

/-- ApplicationCommandOption.value (commands.py lines 144-161): coerce a raw
payload value according to the declared option type.  The interaction argument
is represented by its guild.  Because MENTIONABLE aliases ROLE (both wire
value 8), the final MENTIONABLE branch is unreachable, exactly as in the
source where the ROLE comparison is tested first. -/
def ApplicationCommandOption.value (o : ApplicationCommandOption) (g : Guild)
    (uncoded : RawValue) : Except PyErr Resolved :=
  if o.type = ApplicationCommandOptionType.STRING then
    .ok (.str (pyStrOf uncoded))
  else if o.type = ApplicationCommandOptionType.NUMBER then
    match pyFloatOf uncoded with
    | .error e => .error e
    | .ok q => .ok (.float q)
  else if o.type = ApplicationCommandOptionType.BOOLEAN then
    .ok (.bool (pyTruth uncoded))
  else if o.type = ApplicationCommandOptionType.INTEGER then
    match pyIntOf uncoded with
    | .error e => .error e
    | .ok n => .ok (.int n)
  else if o.type = ApplicationCommandOptionType.USER then
    match pyIntOf uncoded with
    | .error e => .error e
    | .ok n => .ok (memberResolved (g.members n))
  else if o.type = ApplicationCommandOptionType.CHANNEL then
    match pyIntOf uncoded with
    | .error e => .error e
    | .ok n => .ok (channelResolved (g.channels n))
  else if o.type = ApplicationCommandOptionType.ROLE then
    match pyIntOf uncoded with
    | .error e => .error e
    | .ok n => .ok (roleResolved (g.roles n))
  else if o.type = ApplicationCommandOptionType.MENTIONABLE then
    .ok .pyNone
  else
    .ok (.raw uncoded)

/-- ApplicationCommand (commands.py lines 220-262), restricted to the fields
the modelled operations read; permission flags and the server-assigned
identifiers are omitted, no modelled operation or claim reads them. -/
structure ApplicationCommand where
  name : String
  description : String
  type : Nat
  options : Option (List ApplicationCommandOption)
  is_global : Bool
  ephemeral : Bool

def ApplicationCommandType.CHAT_INPUT : Nat := 1

def ApplicationCommandType.USER : Nat := 2

def ApplicationCommandType.MESSAGE : Nat := 3

/-- An incoming interaction, represented by the list of name and value pairs
under the options key of its data dict; none models a data dict with no
options key at all. -/
structure Interaction where
  dataOptions : Option (List (String × RawValue))

/-- The received_values dict built by generate_options_value
(commands.py lines 272-276). -/
def receivedValues (i : Interaction) : List (String × RawValue) :=
  match i.dataOptions with
  | none => []
  | some l => l.foldl (fun d p => dictSet d p.1 p.2) []

/-- The loop of generate_options_value (commands.py lines 277-281): each
declared option first gets its default_value, then, when the payload carries a
same-named entry, the coerced received value (coercion errors propagate). -/
def genLoop (g : Guild) (received : List (String × RawValue)) :
    List ApplicationCommandOption → List (String × Resolved) →
    Except PyErr (List (String × Resolved))
  | [], acc => .ok acc
  | o :: rest, acc =>
      let acc1 := dictSet acc o.name o.default_value
      match dictGet? received o.name with
      | none => genLoop g received rest acc1
      | some raw =>
          match ApplicationCommandOption.value o g raw with
          | .error e => .error e
          | .ok v => genLoop g received rest (dictSet acc1 o.name v)

/-- ApplicationCommand.generate_options_value (commands.py lines 270-282). -/
def generate_options_value (cmd : ApplicationCommand) (g : Guild)
    (i : Interaction) : Except PyErr (List (String × Resolved)) :=
  match cmd.options with
  | none => .ok []
  | some opts => genLoop g (receivedValues i) opts []

/-- ApplicationCommandField (commands.py lines 332-346): the configuration
object a callback parameter may carry as its default value. -/
structure ApplicationCommandField where
  description : String
  required : Bool
  values : Option (List (String × RawValue))
  default_value : Resolved
  min_value : Option Int
  max_value : Option Int

/-- The Python classes that can appear as parameter annotations in the
modelled callbacks: the eight classes the decorator tests for, the class of
inspect Parameter.empty, and a stand-in for any other unrecognized class. -/
inductive PyClass where
  | pyStr
  | pyInt
  | pyFloat
  | pyBool
  | user
  | guildChannel
  | role
  | mentionable
  | emptyAnn
  | dictClass
deriving DecidableEq

/-- Python issubclass restricted to these classes.  The one nontrivial pair is
that bool is a subclass of int in Python; none of str, int, float, bool, User,
GuildChannel, Role and the Mentionable dataclass is otherwise a subclass of
another (mentionable.py defines Mentionable as a standalone dataclass). -/
def isSubclass : PyClass → PyClass → Bool
  | .pyBool, .pyInt => true
  | .pyStr, .pyStr => true
  | .pyInt, .pyInt => true
  | .pyFloat, .pyFloat => true
  | .pyBool, .pyBool => true
  | .user, .user => true
  | .guildChannel, .guildChannel => true
  | .role, .role => true
  | .mentionable, .mentionable => true
  | .emptyAnn, .emptyAnn => true
  | .dictClass, .dictClass => true
  | _, _ => false

/-- One declared parameter of a callback: its name, its annotation class and
its default value (none models inspect Parameter.empty; a default that is not
an ApplicationCommandField is outside the model). -/
structure Param where
  name : String
  annot : PyClass
  default : Option ApplicationCommandField

def fieldRequired : Option ApplicationCommandField → Bool
  | some f => f.required
  | none => false

def fieldDescription : Option ApplicationCommandField → String
  | some f => f.description
  | none => "No description yet."

def fieldDefaultValue : Option ApplicationCommandField → Resolved
  | some f => f.default_value
  | none => .pyNone

/-- choices as the decorator builds them from command_field.values
(one ApplicationCommandOptionChoice per name and value pair, in order). -/
def fieldChoices : Option ApplicationCommandField →
    Option (List ApplicationCommandOptionChoice)
  | some f => (f.values).map (fun vs => vs.map (fun nv => ⟨nv.1, nv.2⟩))
  | none => none

def fieldMin : Option ApplicationCommandField → Option Int
  | some f => f.min_value
  | none => none

def fieldMax : Option ApplicationCommandField → Option Int
  | some f => f.max_value
  | none => none

/-- One iteration of the decorator loop (commands.py lines 374-425): the
issubclass chain in source order (str, int, float, bool, User, GuildChannel,
Role, Mentionable), building the option for the parameter, or none for the
continue branch that silently skips an unrecognized annotation. -/
def paramOption? (p : Param) : Option ApplicationCommandOption :=
  if isSubclass p.annot .pyStr then
    some ⟨ApplicationCommandOptionType.STRING, p.name,
      some (fieldDescription p.default), fieldRequired p.default,
      fieldChoices p.default, none, none, fieldDefaultValue p.default⟩
  else if isSubclass p.annot .pyInt then
    some ⟨ApplicationCommandOptionType.INTEGER, p.name,
      some (fieldDescription p.default), fieldRequired p.default,
      fieldChoices p.default, fieldMin p.default, fieldMax p.default,
      fieldDefaultValue p.default⟩
  else if isSubclass p.annot .pyFloat then
    some ⟨ApplicationCommandOptionType.NUMBER, p.name,
      some (fieldDescription p.default), fieldRequired p.default,
      fieldChoices p.default, fieldMin p.default, fieldMax p.default,
      fieldDefaultValue p.default⟩
  else if isSubclass p.annot .pyBool then
    some ⟨ApplicationCommandOptionType.BOOLEAN, p.name,
      some (fieldDescription p.default), fieldRequired p.default,
      none, none, none, fieldDefaultValue p.default⟩
  else if isSubclass p.annot .user then
    some ⟨ApplicationCommandOptionType.USER, p.name,
      some (fieldDescription p.default), fieldRequired p.default,
      none, none, none, fieldDefaultValue p.default⟩
  else if isSubclass p.annot .guildChannel then
    some ⟨ApplicationCommandOptionType.CHANNEL, p.name,
      some (fieldDescription p.default), fieldRequired p.default,
      none, none, none, fieldDefaultValue p.default⟩
  else if isSubclass p.annot .role then
    some ⟨ApplicationCommandOptionType.ROLE, p.name,
      some (fieldDescription p.default), fieldRequired p.default,
      none, none, none, fieldDefaultValue p.default⟩
  else if isSubclass p.annot .mentionable then
    some ⟨ApplicationCommandOptionType.MENTIONABLE, p.name,
      some (fieldDescription p.default), fieldRequired p.default,
      none, none, none, fieldDefaultValue p.default⟩
  else
    none

/-- The options accumulator update: append the built option, creating the
list on its first use (the options variable starts as None). -/
def buildStep (acc : Option (List ApplicationCommandOption)) (p : Param) :
    Option (List ApplicationCommandOption) :=
  match paramOption? p with
  | none => acc
  | some o => some (acc.getD [] ++ [o])

/-- The options the decorator infers from the callback parameters, in
declaration order; None when no parameter matched. -/
def buildOptions (params : List Param) : Option (List ApplicationCommandOption) :=
  params.foldl buildStep none

/-- slash_command (commands.py lines 349-436): the ApplicationCommand the
decorator builds from its arguments and the callback signature.  Python
truthiness on the name and description arguments: None and the empty string
both fall back to the default. -/
def slash_command (nameArg descArg : Option String) (isGlobal eph : Bool)
    (callbackName : String) (params : List Param) : ApplicationCommand :=
  let commandDescription :=
    match descArg with
    | some d => if d = "" then "No description yet" else d
    | none => "No description yet"
  let commandName :=
    match nameArg with
    | some n => if n = "" then callbackName else n
    | none => callbackName
  ⟨commandName, commandDescription, ApplicationCommandType.CHAT_INPUT,
    buildOptions params, isGlobal, eph⟩

/-- The disjunction of the eight issubclass tests of the decorator chain: the
parameter annotations that yield an option (the specification's recognized
types, stated independently of the chain for the refinement theorem). -/
def recognizedAnnot (c : PyClass) : Bool :=
  isSubclass c .pyStr || isSubclass c .pyInt || isSubclass c .pyFloat ||
  isSubclass c .pyBool || isSubclass c .user || isSubclass c .guildChannel ||
  isSubclass c .role || isSubclass c .mentionable

/-- ScheduledEventPrivacyLevel (scheduled_events.py lines 12-13).  The
GuildEventPrivacyLevel class of discord/enums.py is not under src; its wire
values are fixed by types/guild_event.py as Literal 2, identical to this enum,
so one Lean type models both. -/
inductive ScheduledEventPrivacyLevel where
  | GUILD_ONLY
deriving DecidableEq

def ScheduledEventPrivacyLevel.value : ScheduledEventPrivacyLevel → Int
  | .GUILD_ONLY => 2

/-- Enum construction by value: ValueError for an undeclared value. -/
def ScheduledEventPrivacyLevel.ofInt (n : Int) :
    Except PyErr ScheduledEventPrivacyLevel :=
  if n = 2 then .ok .GUILD_ONLY else .error .valueError

/-- ScheduledEventStatus (scheduled_events.py lines 16-20); GuildEventStatus
of discord/enums.py carries the same Literal 1, 2, 3, 4 wire values
(types/guild_event.py), so one Lean type models both. -/
inductive ScheduledEventStatus where
  | SCHEDULED
  | ACTIVE
  | COMPLETED
  | CANCELED
deriving DecidableEq

def ScheduledEventStatus.value : ScheduledEventStatus → Int
  | .SCHEDULED => 1
  | .ACTIVE => 2
  | .COMPLETED => 3
  | .CANCELED => 4

def ScheduledEventStatus.ofInt (n : Int) : Except PyErr ScheduledEventStatus :=
  if n = 1 then .ok .SCHEDULED
  else if n = 2 then .ok .ACTIVE
  else if n = 3 then .ok .COMPLETED
  else if n = 4 then .ok .CANCELED
  else .error .valueError

/-- ScheduledEventEntityType (scheduled_events.py lines 23-26);
GuildEventEntityType carries the same Literal 1, 2, 3 wire values. -/
inductive ScheduledEventEntityType where
  | STAGE_INSTANCE
  | VOICE
  | EXTERNAL
deriving DecidableEq

def ScheduledEventEntityType.value : ScheduledEventEntityType → Int
  | .STAGE_INSTANCE => 1
  | .VOICE => 2
  | .EXTERNAL => 3

def ScheduledEventEntityType.ofInt (n : Int) :
    Except PyErr ScheduledEventEntityType :=
  if n = 1 then .ok .STAGE_INSTANCE
  else if n = 2 then .ok .VOICE
  else if n = 3 then .ok .EXTERNAL
  else .error .valueError

/-- A datetime, opaque except for the ISO-8601 text isoformat returns. -/
structure Datetime where
  iso : String
deriving DecidableEq

/-- The ScheduledEventEntityMetadata dataclass as a caller builds it for
create and edit (scheduled_events.py lines 29-31). -/
structure ScheduledEventEntityMetadata where
  location : Option String
deriving DecidableEq

def jsonOfOptStr : Option String → Json
  | some s => .str s
  | none => .null

def jsonOfOptInt : Option Int → Json
  | some n => .int n
  | none => .null

/-- dataclasses.asdict on ScheduledEventEntityMetadata. -/
def asdictMetadata (m : ScheduledEventEntityMetadata) : Json :=
  .obj [("location", jsonOfOptStr m.location)]

/-- One conditional dict assignment of an edit body: skip when the argument
was not supplied, otherwise data[k] = v. -/
def maybeSet (d : List (String × Json)) (k : String) :
    Option Json → List (String × Json)
  | none => d
  | some v => dictSet d k v

/-- The request body ScheduledEvent.edit builds (scheduled_events.py lines
140-158).  Arguments are in signature order; every parameter defaults to None
and None means not supplied, so an explicit null can never be sent.  Line 152
of the source stores the supplied entity_metadata under the key entity_type:
the model reproduces that faithfully. -/
def scheduledEventEditBody (channel_id : Option Int)
    (entity_metadata : Option ScheduledEventEntityMetadata)
    (name : Option String)
    (privacy_level : Option ScheduledEventPrivacyLevel)
    (scheduled_start_time : Option Datetime)
    (scheduled_end_time : Option Datetime)
    (entity_type : Option ScheduledEventEntityType)
    (description : Option String)
    (status : Option ScheduledEventStatus) : List (String × Json) :=
  let d1 := maybeSet [] "name" (name.map Json.str)
  let d2 := maybeSet d1 "privacy_level"
    (privacy_level.map (fun v => Json.int (ScheduledEventPrivacyLevel.value v)))
  let d3 := maybeSet d2 "scheduled_start_time"
    (scheduled_start_time.map (fun t => Json.str t.iso))
  let d4 := maybeSet d3 "entity_type"
    (entity_type.map (fun v => Json.int (ScheduledEventEntityType.value v)))
  let d5 := maybeSet d4 "channel_id" (channel_id.map Json.int)
  let d6 := maybeSet d5 "entity_type" (entity_metadata.map asdictMetadata)
  let d7 := maybeSet d6 "scheduled_end_time"
    (scheduled_end_time.map (fun t => Json.str t.iso))
  let d8 := maybeSet d7 "description" (description.map Json.str)
  maybeSet d8 "status"
    (status.map (fun v => Json.int (ScheduledEventStatus.value v)))

/-- An argument of GuildEvent.edit: unset models the Ellipsis default, given
an explicitly passed value. -/
inductive EditArg (α : Type) where
  | unset
  | given (v : α)
deriving DecidableEq

/-- The Json an edit argument contributes, if any. -/
def editMap {α : Type} (a : EditArg α) (f : α → Json) : Option Json :=
  match a with
  | .unset => none
  | .given v => some (f v)

/-- The request body GuildEvent.edit builds (guild_event.py lines 93-112),
with the Ellipsis sentinel distinguishing omitted arguments from explicitly
passed None.  Passing None for scheduled_end_time reaches
None.isoformat() and raises AttributeError, faithfully modelled as the error
result; description, channel_id and location accept None and send null. -/
def guildEventEditBody (name : EditArg String)
    (entity_type : EditArg ScheduledEventEntityType)
    (status : EditArg ScheduledEventStatus)
    (scheduled_start_time : EditArg Datetime)
    (scheduled_end_time : EditArg (Option Datetime))
    (description : EditArg (Option String))
    (channel_id : EditArg (Option Int))
    (location : EditArg (Option String))
    (privacy_level : EditArg ScheduledEventPrivacyLevel) :
    Except PyErr (List (String × Json)) :=
  let d1 := maybeSet [] "name" (editMap name Json.str)
  let d2 := maybeSet d1 "entity_type"
    (editMap entity_type (fun v => Json.int (ScheduledEventEntityType.value v)))
  let d3 := maybeSet d2 "status"
    (editMap status (fun v => Json.int (ScheduledEventStatus.value v)))
  let d4 := maybeSet d3 "scheduled_start_time"
    (editMap scheduled_start_time (fun t => Json.str t.iso))
  let rest := fun (d : List (String × Json)) =>
    let d6 := maybeSet d "description" (editMap description jsonOfOptStr)
    let d7 := maybeSet d6 "channel_id" (editMap channel_id jsonOfOptInt)
    let d8 := maybeSet d7 "entity_metadata"
      (editMap location (fun l => Json.obj [("location", jsonOfOptStr l)]))
    maybeSet d8 "privacy_level"
      (editMap privacy_level (fun v => Json.int (ScheduledEventPrivacyLevel.value v)))
  match scheduled_end_time with
  | .unset => .ok (rest d4)
  | .given none => .error .attributeError
  | .given (some t) => .ok (rest (dictSet d4 "scheduled_end_time" (Json.str t.iso)))

/-- Subscript access data[k]: KeyError when the key is absent. -/
def require (d : List (String × Json)) (k : String) : Except PyErr Json :=
  match dictGet? d k with
  | some v => .ok v
  | none => .error (.keyError k)

/-- Python int() on a decoded JSON value: digits text parses, an integer or
boolean coerces, null raises TypeError, an object raises TypeError. -/
def pyIntJson : Json → Except PyErr Int
  | .str s => match parsePyInt? s with
      | some n => .ok n
      | none => .error .valueError
  | .int n => .ok n
  | .bool b => .ok (if b then 1 else 0)
  | .null => .error .typeError
  | .obj _ => .error .typeError

/-- The idiom int(x) if x is not None else None of the payload decoders. -/
def intOrNull (j : Json) : Except PyErr (Option Int) :=
  match j with
  | .null => .ok none
  | j => (pyIntJson j).map some

/-- datetime.fromisoformat: needs text (TypeError otherwise); the textual
format itself is opaque to the model. -/
def isoOrFail : Json → Except PyErr String
  | .str s => .ok s
  | _ => .error .typeError

def isoOrNull (j : Json) : Except PyErr (Option String) :=
  match j with
  | .null => .ok none
  | j => (isoOrFail j).map some

/-- The entity_metadata record a decoded payload yields; its location holds
the raw JSON value, null standing for Python None. -/
structure EntityMetadataRec where
  location : Json

/-- ScheduledEventEntityMetadata.from_payload (scheduled_events.py lines
33-37): None gives an empty record, a dict is splatted into the constructor
(so any key other than location raises TypeError), anything else cannot be
splatted and raises TypeError. -/
def entityMetadataFromPayload : Json → Except PyErr EntityMetadataRec
  | .null => .ok ⟨Json.null⟩
  | .obj [] => .ok ⟨Json.null⟩
  | .obj [(k, v)] => if k = "location" then .ok ⟨v⟩ else .error .typeError
  | _ => .error .typeError

/-- A user object of the wrapped client library, opaque except for the JSON
it was built from. -/
structure UserRec where
  data : Json

/-- ScheduledEvent as __init__ stores it (scheduled_events.py lines 42-62).
name and description hold the raw JSON values (the source assigns them
without conversion; a Python None from data.get is JSON null here). -/
structure ScheduledEventRec where
  id : Int
  guild_id : Int
  channel_id : Option Int
  creator_id : Option Int
  name : Json
  description : Json
  scheduled_start_time : String
  scheduled_end_time : Option String
  privacy_level : ScheduledEventPrivacyLevel
  status : ScheduledEventStatus
  entity_type : ScheduledEventEntityType
  entity_id : Option Int
  entity_metadata : EntityMetadataRec
  creator : Option UserRec
  user_count : Option Int

/-- ScheduledEvent.__init__ (scheduled_events.py lines 42-62), field by field
in source order; getUser models client.get_user (a cache lookup). -/
def ScheduledEvent_init (getUser : Int → Option UserRec)
    (data : List (String × Json)) : Except PyErr ScheduledEventRec := do
  let idJ ← require data "id"
  let id ← pyIntJson idJ
  let gJ ← require data "guild_id"
  let guild_id ← pyIntJson gJ
  let chJ ← require data "channel_id"
  let channel_id ← intOrNull chJ
  let crJ ← require data "creator_id"
  let creator_id ← intOrNull crJ
  let nameJ ← require data "name"
  let description := (dictGet? data "description").getD Json.null
  let sstJ ← require data "scheduled_start_time"
  let scheduled_start_time ← isoOrFail sstJ
  let seJ ← require data "scheduled_end_time"
  let scheduled_end_time ← isoOrNull seJ
  let plJ ← require data "privacy_level"
  let pln ← pyIntJson plJ
  let privacy_level ← ScheduledEventPrivacyLevel.ofInt pln
  let stJ ← require data "status"
  let stn ← pyIntJson stJ
  let status ← ScheduledEventStatus.ofInt stn
  let etJ ← require data "entity_type"
  let etn ← pyIntJson etJ
  let entity_type ← ScheduledEventEntityType.ofInt etn
  let eiJ ← require data "entity_id"
  let entity_id ← intOrNull eiJ
  let emJ ← require data "entity_metadata"
  let entity_metadata ← entityMetadataFromPayload emJ
  let creator := creator_id.bind getUser
  let user_count ← match dictGet? data "user_count" with
    | none => pure none
    | some j => intOrNull j
  pure ⟨id, guild_id, channel_id, creator_id, nameJ, description,
    scheduled_start_time, scheduled_end_time, privacy_level, status,
    entity_type, entity_id, entity_metadata, creator, user_count⟩

/-- GuildEvent._unroll_metadata (guild_event.py lines 65-68): a None payload
becomes an empty dict, then location = data.get(location); a payload that is
no dict has no get attribute. -/
def unrollMetadata : Json → Except PyErr Json
  | .null => .ok Json.null
  | .obj fields => .ok ((dictGet? fields "location").getD Json.null)
  | _ => .error .attributeError

/-- GuildEvent as _from_data stores it (guild_event.py lines 27-63); creator
holds the raw creator payload when the key exists. -/
structure GuildEventRec where
  id : Int
  guild_id : Int
  channel_id : Option Int
  creator_id : Option Int
  name : Json
  description : Json
  scheduled_start_time : String
  scheduled_end_time : Option String
  privacy_level : ScheduledEventPrivacyLevel
  status : ScheduledEventStatus
  entity_type : ScheduledEventEntityType
  entity_id : Option Int
  location : Json
  creator : Option Json
  user_count : Option Int

/-- GuildEvent._from_data (guild_event.py lines 27-63), field by field in
source order.  Unlike ScheduledEvent.__init__, a present user_count is
converted without a None check, and creator is read only when its key
exists. -/
def GuildEvent_fromData (data : List (String × Json)) :
    Except PyErr GuildEventRec := do
  let idJ ← require data "id"
  let id ← pyIntJson idJ
  let gJ ← require data "guild_id"
  let guild_id ← pyIntJson gJ
  let chJ ← require data "channel_id"
  let channel_id ← intOrNull chJ
  let crJ ← require data "creator_id"
  let creator_id ← intOrNull crJ
  let nameJ ← require data "name"
  let description := (dictGet? data "description").getD Json.null
  let sstJ ← require data "scheduled_start_time"
  let scheduled_start_time ← isoOrFail sstJ
  let seJ ← require data "scheduled_end_time"
  let scheduled_end_time ← isoOrNull seJ
  let plJ ← require data "privacy_level"
  let pln ← pyIntJson plJ
  let privacy_level ← ScheduledEventPrivacyLevel.ofInt pln
  let stJ ← require data "status"
  let stn ← pyIntJson stJ
  let status ← ScheduledEventStatus.ofInt stn
  let etJ ← require data "entity_type"
  let etn ← pyIntJson etJ
  let entity_type ← ScheduledEventEntityType.ofInt etn
  let eiJ ← require data "entity_id"
  let entity_id ← intOrNull eiJ
  let emJ ← require data "entity_metadata"
  let location ← unrollMetadata emJ
  let creator := dictGet? data "creator"
  let user_count ← match dictGet? data "user_count" with
    | none => pure none
    | some j => (pyIntJson j).map some
  pure ⟨id, guild_id, channel_id, creator_id, nameJ, description,
    scheduled_start_time, scheduled_end_time, privacy_level, status,
    entity_type, entity_id, location, creator, user_count⟩

/-- A discord.User built by fetch_users from an entry of the response. -/
structure SEUser where
  data : Json

/-- A discord.Member built by fetch_users: the member JSON with the user
entry merged in, and the guild it was constructed for. -/
structure SEMember where
  data : List (String × Json)
  guild : Int

/-- The member built for one response entry when with_member was passed:
entry member (KeyError when absent) must be a dict (TypeError otherwise),
then member user = entry user is merged in. -/
def memberOfEntry (guild_id : Int) (entry : List (String × Json)) :
    Except PyErr SEMember :=
  match require entry "member" with
  | .error e => .error e
  | .ok mj =>
      match require entry "user" with
      | .error e => .error e
      | .ok uj =>
          match mj with
          | .obj mfields => .ok ⟨dictSet mfields "user" uj, guild_id⟩
          | _ => .error .typeError

/-- ScheduledEvent.fetch_users response processing (scheduled_events.py lines
207-215): the users list is always built from the user entries; the members
list is built only when with_member is true.  (The outgoing query parameters
are not modelled; with_member here is the call argument.) -/
def scheduledEventFetchUsers (guild_id : Int) (with_member : Bool)
    (result : List (List (String × Json))) :
    Except PyErr (List SEUser × Option (List SEMember)) :=
  match result.mapM (fun entry => (require entry "user").map SEUser.mk) with
  | .error e => .error e
  | .ok users =>
      if with_member then
        match result.mapM (memberOfEntry guild_id) with
        | .error e => .error e
        | .ok members => .ok (users, some members)
      else
        .ok (users, none)

/-- An element of the list GuildEvent.get_users returns: a user, or a member
whenever the entry carried member data. -/
inductive GEUserOrMember where
  | user (data : Json)
  | member (data : List (String × Json))

/-- GuildEvent.get_users response processing (guild_event.py lines 141-150).
The with_member argument is sent as a query parameter only (lines 134-140)
and never consulted when the response is processed: an entry whose member
value exists and is not null always yields a Member. -/
def guildEventGetUsers (with_member : Bool)
    (result : List (List (String × Json))) :
    Except PyErr (List GEUserOrMember) :=
  result.mapM (fun entry =>
    match dictGet? entry "member" with
    | some Json.null => (require entry "user").map GEUserOrMember.user
    | some mj =>
        match require entry "user" with
        | .error e => .error e
        | .ok uj =>
            match mj with
            | .obj mfields => .ok (GEUserOrMember.member (dictSet mfields "user" uj))
            | _ => .error .typeError
    | none => (require entry "user").map GEUserOrMember.user)

/-- Truth of a decode succeeding, for decidable concrete statements. -/
def decodeOk {α : Type} : Except PyErr α → Bool
  | .ok _ => true
  | .error _ => false

/-- Truth of a decode failing with a key-lookup error for precisely k. -/
def failsWithKey {α : Type} (e : Except PyErr α) (k : String) : Bool :=
  match e with
  | .error (.keyError k2) => k2 == k
  | _ => false

/-- Truth of a decode failing with a TypeError. -/
def failsWithType {α : Type} : Except PyErr α → Bool
  | .error .typeError => true
  | _ => false

/-- The parameter count of the example callback: an integer annotation with
no default. -/
def countParam : Param := ⟨"count", .pyInt, none⟩

/-- The parameter loud of the example callback: a boolean annotation with no
default. -/
def loudParam : Param := ⟨"loud", .pyBool, none⟩

/-- A guild whose only cached entity is the role with snowflake 5. -/
def roleGuild : Guild :=
  ⟨fun _ => none, fun _ => none, fun n => if n = 5 then some ⟨5⟩ else none⟩

/-- A guild with an empty cache. -/
def trivialGuild : Guild := ⟨fun _ => none, fun _ => none, fun _ => none⟩

/-- A declared option of type MENTIONABLE. -/
def mentionableOption : ApplicationCommandOption :=
  ⟨ApplicationCommandOptionType.MENTIONABLE, "target", none, false, none,
    none, none, .pyNone⟩

/-- A declared option of type BOOLEAN. -/
def boolOption : ApplicationCommandOption :=
  ⟨ApplicationCommandOptionType.BOOLEAN, "loud", none, false, none,
    none, none, .pyNone⟩

/-- A declared option of type STRING named who. -/
def strOptionEx : ApplicationCommandOption :=
  ⟨ApplicationCommandOptionType.STRING, "who", none, false, none,
    none, none, .pyNone⟩

/-- A declared option of type INTEGER named count. -/
def intOptionEx : ApplicationCommandOption :=
  ⟨ApplicationCommandOptionType.INTEGER, "count", none, false, none,
    none, none, .pyNone⟩

/-- A command declaring the who and count options. -/
def commandEx : ApplicationCommand :=
  ⟨"greet", "No description yet", ApplicationCommandType.CHAT_INPUT,
    some [strOptionEx, intOptionEx], false, true⟩

/-- An interaction payload carrying a value for count only. -/
def interactionEx : Interaction := ⟨some [("count", .str "5")]⟩

/-- The client user cache for the decode examples: one user, snowflake 7. -/
def getUserEx : Int → Option UserRec :=
  fun n => if n = 7 then some ⟨Json.str "creator7"⟩ else none

/-- A complete, well-formed scheduled-event payload: every required key is
present and the nullable ones exercise both null and proper values. -/
def samplePayload : List (String × Json) :=
  [("id", .str "111"),
   ("guild_id", .int 5),
   ("channel_id", .null),
   ("creator_id", .str "7"),
   ("name", .str "party"),
   ("description", .str "a party"),
   ("scheduled_start_time", .str "2024-05-01T10:00:00+00:00"),
   ("scheduled_end_time", .null),
   ("privacy_level", .int 2),
   ("status", .int 1),
   ("entity_type", .int 3),
   ("entity_id", .null),
   ("entity_metadata", .obj [("location", .str "Park")]),
   ("user_count", .int 4)]

/-- The same payload with the creator object the GuildEvent variant reads. -/
def samplePayloadGE : List (String × Json) :=
  samplePayload ++ [("creator", .obj [("id", .str "7")])]

/-- The keys the claim lists as required with a null value allowed. -/
def claimedRequiredKeys : List String :=
  ["channel_id", "creator_id", "scheduled_end_time", "entity_id",
   "privacy_level", "status", "entity_type", "entity_metadata"]

/-- The further keys the decoders read with subscript access. -/
def otherRequiredKeys : List String :=
  ["id", "guild_id", "name", "scheduled_start_time"]

/-- The claimed keys for which a null value really does decode. -/
def nullTolerantKeys : List String :=
  ["channel_id", "creator_id", "scheduled_end_time", "entity_id",
   "entity_metadata"]

/-- The claimed keys whose null value raises TypeError inside int(). -/
def enumValuedKeys : List String :=
  ["privacy_level", "status", "entity_type"]

/-- A fetch-users response entry with no member data. -/
def plainUserEntry : List (String × Json) := [("user", .str "u")]

/-- A fetch-users response entry that does carry member data. -/
def memberUserEntry : List (String × Json) :=
  [("user", .str "u"), ("member", .obj [("nick", .str "n")])]

/-- The value one declared option contributes to the resolved map: the
default when the payload has no same-named entry, the coerced received value
otherwise (used to state the loop invariant of generate_options_value). -/
def entryValue (g : Guild) (received : List (String × RawValue))
    (o : ApplicationCommandOption) : Except PyErr Resolved :=
  match dictGet? received o.name with
  | none => .ok o.default_value
  | some raw => ApplicationCommandOption.value o g raw

theorem dictGet_set_self {α : Type} (d : List (String × α)) (k : String) (v : α) :
    dictGet? (dictSet d k v) k = some v := by
  induction d with
  | nil => simp [dictSet, dictGet?]
  | cons hd tl ih =>
      obtain ⟨k1, v1⟩ := hd
      by_cases h : k1 = k
      · simp [dictSet, h, dictGet?]
      · simp [dictSet, h, dictGet?, ih]

theorem dictGet_set_ne {α : Type} (d : List (String × α)) {k k2 : String} (v : α)
    (h : k2 ≠ k) : dictGet? (dictSet d k v) k2 = dictGet? d k2 := by
  have hne : ¬ k = k2 := fun hk => h hk.symm
  induction d with
  | nil => simp [dictSet, dictGet?, hne]
  | cons hd tl ih =>
      obtain ⟨k1, v1⟩ := hd
      by_cases h1 : k1 = k
      · subst h1
        simp [dictSet, dictGet?, hne]
      · simp [dictSet, h1, dictGet?, ih]

theorem dictSet_keys_mem {α : Type} (d : List (String × α)) (k : String) (v : α)
    (h : k ∈ d.map Prod.fst) : (dictSet d k v).map Prod.fst = d.map Prod.fst := by
  induction d with
  | nil => simp at h
  | cons hd tl ih =>
      obtain ⟨k1, v1⟩ := hd
      rw [List.map_cons, List.mem_cons] at h
      by_cases h1 : k1 = k
      · subst h1
        simp [dictSet]
      · have h2 : k ∈ tl.map Prod.fst := by
          rcases h with h | h
          · exact absurd h.symm h1
          · exact h
        simp [dictSet, h1, ih h2]

theorem dictSet_keys_notmem {α : Type} (d : List (String × α)) (k : String) (v : α)
    (h : k ∉ d.map Prod.fst) :
    (dictSet d k v).map Prod.fst = d.map Prod.fst ++ [k] := by
  induction d with
  | nil => simp [dictSet]
  | cons hd tl ih =>
      obtain ⟨k1, v1⟩ := hd
      simp only [List.map_cons, List.mem_cons] at h
      push_neg at h
      have h1 : ¬ k1 = k := fun hk => h.1 hk.symm
      simp [dictSet, h1, ih h.2]

theorem dictGet_maybeSet_ne (d : List (String × Json)) {k k2 : String}
    (x : Option Json) (h : k2 ≠ k) :
    dictGet? (maybeSet d k x) k2 = dictGet? d k2 := by
  cases x with
  | none => rfl
  | some v => exact dictGet_set_ne d v h

theorem paramOption_map_name (p : Param) :
    Option.map ApplicationCommandOption.name (paramOption? p) =
      if recognizedAnnot p.annot then some p.name else none := by
  obtain ⟨nm, a, df⟩ := p
  cases a <;> simp [paramOption?, recognizedAnnot, isSubclass]

theorem paramOption_none_iff (p : Param) :
    paramOption? p = none ↔ recognizedAnnot p.annot = false := by
  obtain ⟨nm, a, df⟩ := p
  cases a <;> simp [paramOption?, recognizedAnnot, isSubclass]

theorem buildFold_spec (params : List Param) :
    ∀ acc : Option (List ApplicationCommandOption),
    ((params.foldl buildStep acc).getD []).map ApplicationCommandOption.name =
      ((acc.getD []).map ApplicationCommandOption.name) ++
        ((params.filter (fun p => recognizedAnnot p.annot)).map Param.name)
    ∧ (params.foldl buildStep acc = none ↔
        acc = none ∧ params.filter (fun p => recognizedAnnot p.annot) = []) := by
  induction params with
  | nil => intro acc; simp
  | cons p rest ih =>
      intro acc
      by_cases hrec : recognizedAnnot p.annot
      · have hmap := paramOption_map_name p
        rw [if_pos hrec] at hmap
        obtain ⟨o, ho, hname⟩ : ∃ o, paramOption? p = some o ∧
            ApplicationCommandOption.name o = p.name := by
          cases h : paramOption? p with
          | none => rw [h] at hmap; simp at hmap
          | some o =>
              rw [h] at hmap
              simp at hmap
              exact ⟨o, rfl, hmap⟩
        have hstep : buildStep acc p = some (acc.getD [] ++ [o]) := by
          simp [buildStep, ho]
        have hrest := ih (some (acc.getD [] ++ [o]))
        constructor
        · rw [List.foldl_cons, hstep, hrest.1]
          simp [List.filter_cons, hrec, hname]
        · rw [List.foldl_cons, hstep]
          simp [hrest.2, List.filter_cons, hrec]
      · have hnone : paramOption? p = none := by
          rw [paramOption_none_iff]
          simpa using hrec
        have hstep : buildStep acc p = acc := by simp [buildStep, hnone]
        have hb : recognizedAnnot p.annot = false := by simpa using hrec
        rw [List.foldl_cons, hstep]
        constructor
        · rw [(ih acc).1]
          simp [List.filter_cons, hb]
        · rw [(ih acc).2]
          simp [List.filter_cons, hb]

theorem genLoop_spec (g : Guild) (received : List (String × RawValue)) :
    ∀ (opts : List ApplicationCommandOption) (acc res : List (String × Resolved)),
    (opts.map ApplicationCommandOption.name).Nodup →
    (∀ o ∈ opts, o.name ∉ acc.map Prod.fst) →
    genLoop g received opts acc = .ok res →
    res.map Prod.fst = acc.map Prod.fst ++ opts.map ApplicationCommandOption.name
    ∧ (∀ k, k ∉ opts.map ApplicationCommandOption.name →
        dictGet? res k = dictGet? acc k)
    ∧ (∀ o ∈ opts, ∃ v, entryValue g received o = .ok v ∧
        dictGet? res o.name = some v) := by
  intro opts
  induction opts with
  | nil =>
      intro acc res hnd hdisj hrun
      simp only [genLoop, Except.ok.injEq] at hrun
      subst hrun
      exact ⟨by simp, fun k _ => rfl, by simp⟩
  | cons o rest ih =>
      intro acc res hnd hdisj hrun
      rw [List.map_cons, List.nodup_cons] at hnd
      obtain ⟨hno, hnd2⟩ := hnd
      have hnacc : o.name ∉ acc.map Prod.fst := hdisj o (List.mem_cons_self o rest)
      have hdisj2 : ∀ o2 ∈ rest,
          o2.name ∉ (dictSet acc o.name o.default_value).map Prod.fst := by
        intro o2 ho2
        rw [dictSet_keys_notmem _ _ _ hnacc]
        simp only [List.mem_append, List.mem_singleton]
        rintro (hmem | heq)
        · exact hdisj o2 (List.mem_cons_of_mem o ho2) hmem
        · exact hno (heq ▸ List.mem_map_of_mem ApplicationCommandOption.name ho2)
      cases hget : dictGet? received o.name with
      | none =>
          simp only [genLoop, hget] at hrun
          obtain ⟨h1, h2, h3⟩ := ih (dictSet acc o.name o.default_value) res hnd2 hdisj2 hrun
          refine ⟨?_, ?_, ?_⟩
          · rw [h1, dictSet_keys_notmem _ _ _ hnacc]
            simp
          · intro k hk
            rw [List.map_cons, List.mem_cons] at hk
            push_neg at hk
            rw [h2 k hk.2, dictGet_set_ne _ _ hk.1]
          · intro o2 ho2
            rcases List.mem_cons.mp ho2 with rfl | ho2
            · refine ⟨o2.default_value, by simp [entryValue, hget], ?_⟩
              rw [h2 o2.name hno, dictGet_set_self]
            · exact h3 o2 ho2
      | some raw =>
          simp only [genLoop, hget] at hrun
          cases hval : ApplicationCommandOption.value o g raw with
          | error e => rw [hval] at hrun; simp at hrun
          | ok v =>
              rw [hval] at hrun
              have hkeys1 : (dictSet acc o.name o.default_value).map Prod.fst =
                  acc.map Prod.fst ++ [o.name] := dictSet_keys_notmem _ _ _ hnacc
              have hmem : o.name ∈ (dictSet acc o.name o.default_value).map Prod.fst := by
                rw [hkeys1]; simp
              have hdisj3 : ∀ o2 ∈ rest,
                  o2.name ∉ (dictSet (dictSet acc o.name o.default_value) o.name v).map Prod.fst := by
                intro o2 ho2
                rw [dictSet_keys_mem _ _ _ hmem]
                exact hdisj2 o2 ho2
              obtain ⟨h1, h2, h3⟩ := ih _ res hnd2 hdisj3 hrun
              refine ⟨?_, ?_, ?_⟩
              · rw [h1, dictSet_keys_mem _ _ _ hmem, hkeys1]
                simp
              · intro k hk
                rw [List.map_cons, List.mem_cons] at hk
                push_neg at hk
                rw [h2 k hk.2, dictGet_set_ne _ _ hk.1, dictGet_set_ne _ _ hk.1]
              · intro o2 ho2
                rcases List.mem_cons.mp ho2 with rfl | ho2
                · refine ⟨v, by simp [entryValue, hget, hval], ?_⟩
                  rw [h2 o2.name hno, dictGet_set_self]
                · exact h3 o2 ho2

theorem valueString (o : ApplicationCommandOption) (g : Guild) (raw : RawValue)
    (h : o.type = ApplicationCommandOptionType.STRING) :
    ApplicationCommandOption.value o g raw = .ok (.str (pyStrOf raw)) := by
  simp [ApplicationCommandOption.value, h, ApplicationCommandOptionType.STRING]

theorem valueNumber (o : ApplicationCommandOption) (g : Guild) (raw : RawValue)
    (h : o.type = ApplicationCommandOptionType.NUMBER) (q : Rat)
    (hq : pyFloatOf raw = .ok q) :
    ApplicationCommandOption.value o g raw = .ok (.float q) := by
  simp [ApplicationCommandOption.value, h, hq, ApplicationCommandOptionType.STRING,
    ApplicationCommandOptionType.NUMBER]

theorem valueBoolean (o : ApplicationCommandOption) (g : Guild) (raw : RawValue)
    (h : o.type = ApplicationCommandOptionType.BOOLEAN) :
    ApplicationCommandOption.value o g raw = .ok (.bool (pyTruth raw)) := by
  simp [ApplicationCommandOption.value, h, ApplicationCommandOptionType.STRING,
    ApplicationCommandOptionType.NUMBER, ApplicationCommandOptionType.BOOLEAN]

theorem valueInteger (o : ApplicationCommandOption) (g : Guild) (raw : RawValue)
    (h : o.type = ApplicationCommandOptionType.INTEGER) (n : Int)
    (hn : pyIntOf raw = .ok n) :
    ApplicationCommandOption.value o g raw = .ok (.int n) := by
  simp [ApplicationCommandOption.value, h, hn, ApplicationCommandOptionType.STRING,
    ApplicationCommandOptionType.NUMBER, ApplicationCommandOptionType.BOOLEAN,
    ApplicationCommandOptionType.INTEGER]

theorem valueUser (o : ApplicationCommandOption) (g : Guild) (raw : RawValue)
    (h : o.type = ApplicationCommandOptionType.USER) (n : Int)
    (hn : pyIntOf raw = .ok n) :
    ApplicationCommandOption.value o g raw = .ok (memberResolved (g.members n)) := by
  simp [ApplicationCommandOption.value, h, hn, ApplicationCommandOptionType.STRING,
    ApplicationCommandOptionType.NUMBER, ApplicationCommandOptionType.BOOLEAN,
    ApplicationCommandOptionType.INTEGER, ApplicationCommandOptionType.USER]

theorem valueChannel (o : ApplicationCommandOption) (g : Guild) (raw : RawValue)
    (h : o.type = ApplicationCommandOptionType.CHANNEL) (n : Int)
    (hn : pyIntOf raw = .ok n) :
    ApplicationCommandOption.value o g raw = .ok (channelResolved (g.channels n)) := by
  simp [ApplicationCommandOption.value, h, hn, ApplicationCommandOptionType.STRING,
    ApplicationCommandOptionType.NUMBER, ApplicationCommandOptionType.BOOLEAN,
    ApplicationCommandOptionType.INTEGER, ApplicationCommandOptionType.USER,
    ApplicationCommandOptionType.CHANNEL]

theorem valueRole (o : ApplicationCommandOption) (g : Guild) (raw : RawValue)
    (h : o.type = ApplicationCommandOptionType.ROLE) (n : Int)
    (hn : pyIntOf raw = .ok n) :
    ApplicationCommandOption.value o g raw = .ok (roleResolved (g.roles n)) := by
  simp [ApplicationCommandOption.value, h, hn, ApplicationCommandOptionType.STRING,
    ApplicationCommandOptionType.NUMBER, ApplicationCommandOptionType.BOOLEAN,
    ApplicationCommandOptionType.INTEGER, ApplicationCommandOptionType.USER,
    ApplicationCommandOptionType.CHANNEL, ApplicationCommandOptionType.ROLE]

/-- C1: the claim states that a boolean-annotated callback parameter is built
with option type BOOLEAN, never INTEGER, so that parameters (count: int,
loud: bool) yield options typed INTEGER then BOOLEAN.  The code instead tests
issubclass against int before bool, and Python's bool is a subclass of int,
so the loud option is built with type INTEGER: evaluating the source model on
exactly the claim's example yields two INTEGER options. -/
theorem C1_boolean_param_built_as_integer :
    (((slash_command none none false true "cmd" [countParam, loudParam]).options).getD []).map
        ApplicationCommandOption.type =
      [ApplicationCommandOptionType.INTEGER, ApplicationCommandOptionType.INTEGER]
    ∧ (((slash_command none none false true "cmd" [countParam, loudParam]).options).getD []).map
        ApplicationCommandOption.name = ["count", "loud"]
    ∧ ApplicationCommandOptionType.INTEGER ≠ ApplicationCommandOptionType.BOOLEAN := by
  refine ⟨rfl, rfl, by decide⟩

/-- C2: the claim states that value resolution for a MENTIONABLE option
returns an empty result and never resolves against the guild.  Because the
enum gives MENTIONABLE the value 8, aliasing ROLE, the ROLE branch is matched
first: on raw value 5 in a guild holding role 5, the option resolves to that
role, not to None. -/
theorem C2_mentionable_option_resolves_via_get_role :
    ApplicationCommandOption.value mentionableOption roleGuild (.str "5") =
      .ok (.role ⟨5⟩)
    ∧ ApplicationCommandOptionType.MENTIONABLE = ApplicationCommandOptionType.ROLE :=
  ⟨rfl, rfl⟩

/-- C5: the claim states that every member of ApplicationCommandOptionType
carries the wire value Discord documents, all pairwise distinct, with
ROLE = 8 and MENTIONABLE = 9.  The source assigns MENTIONABLE = 8: it
collides with ROLE and the value list is not duplicate-free. -/
theorem C5_enum_values_collide :
    ApplicationCommandOptionType.MENTIONABLE = 8
    ∧ ApplicationCommandOptionType.ROLE = 8
    ∧ ApplicationCommandOptionType.MENTIONABLE = ApplicationCommandOptionType.ROLE
    ∧ ¬ optionTypeWireValues.Nodup := by
  refine ⟨rfl, rfl, rfl, by decide⟩

/-- C6: for every callback, the command slash_command builds has exactly one
option per parameter whose annotation matches a recognized type, in
declaration order, and every parameter matching none is skipped with no
option and no error (options stays None when nothing matched). -/
theorem C6_unrecognized_params_skipped (nm ds : Option String) (ig eph : Bool)
    (cb : String) (params : List Param) :
    (((slash_command nm ds ig eph cb params).options).getD []).map
        ApplicationCommandOption.name =
      (params.filter (fun p => recognizedAnnot p.annot)).map Param.name
    ∧ ((slash_command nm ds ig eph cb params).options = none ↔
        params.filter (fun p => recognizedAnnot p.annot) = []) := by
  have h := buildFold_spec params none
  constructor
  · simpa [slash_command, buildOptions] using h.1
  · simpa [slash_command, buildOptions] using h.2

/-- C10: for every BOOLEAN-typed option, value resolution applies Python
truthiness: the result is False exactly for the empty string, zero and False,
and every non-empty string, the string false included, resolves to True. -/
theorem C10_boolean_truthiness (o : ApplicationCommandOption) (g : Guild)
    (raw : RawValue) (h : o.type = ApplicationCommandOptionType.BOOLEAN) :
    ApplicationCommandOption.value o g raw = .ok (.bool (pyTruth raw))
    ∧ (pyTruth raw = false ↔
        (raw = .str "" ∨ raw = .int 0 ∨ raw = .float 0 ∨ raw = .bool false))
    ∧ pyTruth (.str "false") = true := by
  refine ⟨valueBoolean o g raw h, ?_, by decide⟩
  cases raw with
  | str s => simp [pyTruth]
  | int n => simp [pyTruth]
  | float q => simp [pyTruth]
  | bool b => cases b <;> simp [pyTruth]

/-- Witness for C10: the BOOLEAN option applied to the raw string false
resolves to True. -/
theorem C10_witness :
    boolOption.type = ApplicationCommandOptionType.BOOLEAN
    ∧ ApplicationCommandOption.value boolOption trivialGuild (.str "false") =
        .ok (.bool true) :=
  ⟨rfl, (C10_boolean_truthiness boolOption trivialGuild (.str "false") rfl).1⟩

/-- C8: option resolution yields one entry per declared option name, the
default_value when the payload has no same-named entry, and otherwise the
raw value coerced by option type: STRING to text, NUMBER to float, BOOLEAN
to boolean, INTEGER to integer, USER, CHANNEL and ROLE resolved by numeric
identifier against the guild lookups. -/
theorem C8_generate_options_value (cmd : ApplicationCommand) (g : Guild)
    (i : Interaction) (opts : List ApplicationCommandOption)
    (res : List (String × Resolved))
    (hopts : cmd.options = some opts)
    (hnd : (opts.map ApplicationCommandOption.name).Nodup)
    (hres : generate_options_value cmd g i = .ok res) :
    res.map Prod.fst = opts.map ApplicationCommandOption.name
    ∧ ∀ o ∈ opts,
        (dictGet? (receivedValues i) o.name = none →
          dictGet? res o.name = some o.default_value)
        ∧ ∀ raw, dictGet? (receivedValues i) o.name = some raw →
            ((o.type = ApplicationCommandOptionType.STRING →
                dictGet? res o.name = some (.str (pyStrOf raw)))
            ∧ (o.type = ApplicationCommandOptionType.NUMBER →
                ∀ q, pyFloatOf raw = .ok q → dictGet? res o.name = some (.float q))
            ∧ (o.type = ApplicationCommandOptionType.BOOLEAN →
                dictGet? res o.name = some (.bool (pyTruth raw)))
            ∧ (o.type = ApplicationCommandOptionType.INTEGER →
                ∀ n, pyIntOf raw = .ok n → dictGet? res o.name = some (.int n))
            ∧ (o.type = ApplicationCommandOptionType.USER →
                ∀ n, pyIntOf raw = .ok n →
                  dictGet? res o.name = some (memberResolved (g.members n)))
            ∧ (o.type = ApplicationCommandOptionType.CHANNEL →
                ∀ n, pyIntOf raw = .ok n →
                  dictGet? res o.name = some (channelResolved (g.channels n)))
            ∧ (o.type = ApplicationCommandOptionType.ROLE →
                ∀ n, pyIntOf raw = .ok n →
                  dictGet? res o.name = some (roleResolved (g.roles n)))) := by
  have hrun : genLoop g (receivedValues i) opts [] = .ok res := by
    simp only [generate_options_value, hopts] at hres
    exact hres
  have hdisj : ∀ o ∈ opts, o.name ∉ ([] : List (String × Resolved)).map Prod.fst := by
    simp
  obtain ⟨h1, _h2, h3⟩ := genLoop_spec g (receivedValues i) opts [] res hnd hdisj hrun
  refine ⟨by simpa using h1, ?_⟩
  intro o ho
  obtain ⟨v, hev, hgv⟩ := h3 o ho
  constructor
  · intro habs
    have hv : o.default_value = v := by
      simp only [entryValue, habs, Except.ok.injEq] at hev
      exact hev
    rw [hgv, ← hv]
  · intro raw hraw
    have hval : ApplicationCommandOption.value o g raw = .ok v := by
      simp only [entryValue, hraw] at hev
      exact hev
    refine ⟨?_, ?_, ?_, ?_, ?_, ?_, ?_⟩
    · intro ht
      rw [valueString o g raw ht] at hval
      injection hval with hh
      rw [hgv, ← hh]
    · intro ht q hq
      rw [valueNumber o g raw ht q hq] at hval
      injection hval with hh
      rw [hgv, ← hh]
    · intro ht
      rw [valueBoolean o g raw ht] at hval
      injection hval with hh
      rw [hgv, ← hh]
    · intro ht n hn
      rw [valueInteger o g raw ht n hn] at hval
      injection hval with hh
      rw [hgv, ← hh]
    · intro ht n hn
      rw [valueUser o g raw ht n hn] at hval
      injection hval with hh
      rw [hgv, ← hh]
    · intro ht n hn
      rw [valueChannel o g raw ht n hn] at hval
      injection hval with hh
      rw [hgv, ← hh]
    · intro ht n hn
      rw [valueRole o g raw ht n hn] at hval
      injection hval with hh
      rw [hgv, ← hh]

/-- Witness for C8: a command declaring a STRING and an INTEGER option,
resolved against a payload carrying only the integer, yields the default for
the first and the coerced integer for the second. -/
theorem C8_witness :
    commandEx.options = some [strOptionEx, intOptionEx]
    ∧ generate_options_value commandEx trivialGuild interactionEx =
        .ok [("who", .pyNone), ("count", .int 5)]
    ∧ [("who", Resolved.pyNone), ("count", Resolved.int 5)].map Prod.fst =
        [strOptionEx, intOptionEx].map ApplicationCommandOption.name :=
  ⟨rfl, rfl, (C8_generate_options_value commandEx trivialGuild interactionEx
      [strOptionEx, intOptionEx] [("who", .pyNone), ("count", .int 5)]
      rfl (by decide) rfl).1⟩

/-- C3: the claim states that every edit sends exactly one entry per supplied
field under that field's own wire name, entity_metadata in particular going
out under entity_metadata without touching entity_type.  Line 152 of
scheduled_events.py instead stores the supplied metadata under the key
entity_type: supplying only entity_metadata produces an entity_type entry,
and supplying both makes the metadata overwrite the entity_type value.  The
zero-field call does send an empty body. -/
theorem C3_entity_metadata_sent_as_entity_type :
    scheduledEventEditBody none (some ⟨some "Park"⟩) none none none none none none none =
      [("entity_type", Json.obj [("location", Json.str "Park")])]
    ∧ scheduledEventEditBody none (some ⟨some "Park"⟩) none none none none
        (some .EXTERNAL) none none =
      [("entity_type", Json.obj [("location", Json.str "Park")])]
    ∧ scheduledEventEditBody none none none none none none none none none = [] :=
  ⟨rfl, rfl, rfl⟩

theorem maybeSet_none (d : List (String × Json)) (k : String) :
    maybeSet d k none = d := rfl

theorem maybeSet_some (d : List (String × Json)) (k : String) (v : Json) :
    maybeSet d k (some v) = dictSet d k v := rfl

theorem schedEditBody_description_lookup
    (ch : Option Int) (em : Option ScheduledEventEntityMetadata)
    (nm : Option String) (pl : Option ScheduledEventPrivacyLevel)
    (sst set2 : Option Datetime) (et : Option ScheduledEventEntityType)
    (de : Option String) (st : Option ScheduledEventStatus) :
    dictGet? (scheduledEventEditBody ch em nm pl sst set2 et de st) "description" =
      Option.map Json.str de := by
  simp only [scheduledEventEditBody]
  rw [dictGet_maybeSet_ne _ _ (by decide : ("description" : String) ≠ "status")]
  cases de with
  | none =>
      simp only [Option.map_none']
      rw [maybeSet_none]
      rw [dictGet_maybeSet_ne _ _ (by decide : ("description" : String) ≠ "scheduled_end_time")]
      rw [dictGet_maybeSet_ne _ _ (by decide : ("description" : String) ≠ "entity_type")]
      rw [dictGet_maybeSet_ne _ _ (by decide : ("description" : String) ≠ "channel_id")]
      rw [dictGet_maybeSet_ne _ _ (by decide : ("description" : String) ≠ "entity_type")]
      rw [dictGet_maybeSet_ne _ _ (by decide : ("description" : String) ≠ "scheduled_start_time")]
      rw [dictGet_maybeSet_ne _ _ (by decide : ("description" : String) ≠ "privacy_level")]
      rw [dictGet_maybeSet_ne _ _ (by decide : ("description" : String) ≠ "name")]
      rfl
  | some s =>
      simp only [Option.map_some']
      rw [maybeSet_some, dictGet_set_self]

theorem schedEditBody_channel_lookup
    (ch : Option Int) (em : Option ScheduledEventEntityMetadata)
    (nm : Option String) (pl : Option ScheduledEventPrivacyLevel)
    (sst set2 : Option Datetime) (et : Option ScheduledEventEntityType)
    (de : Option String) (st : Option ScheduledEventStatus) :
    dictGet? (scheduledEventEditBody ch em nm pl sst set2 et de st) "channel_id" =
      Option.map Json.int ch := by
  simp only [scheduledEventEditBody]
  rw [dictGet_maybeSet_ne _ _ (by decide : ("channel_id" : String) ≠ "status")]
  rw [dictGet_maybeSet_ne _ _ (by decide : ("channel_id" : String) ≠ "description")]
  rw [dictGet_maybeSet_ne _ _ (by decide : ("channel_id" : String) ≠ "scheduled_end_time")]
  rw [dictGet_maybeSet_ne _ _ (by decide : ("channel_id" : String) ≠ "entity_type")]
  cases ch with
  | none =>
      simp only [Option.map_none']
      rw [maybeSet_none]
      rw [dictGet_maybeSet_ne _ _ (by decide : ("channel_id" : String) ≠ "entity_type")]
      rw [dictGet_maybeSet_ne _ _ (by decide : ("channel_id" : String) ≠ "scheduled_start_time")]
      rw [dictGet_maybeSet_ne _ _ (by decide : ("channel_id" : String) ≠ "privacy_level")]
      rw [dictGet_maybeSet_ne _ _ (by decide : ("channel_id" : String) ≠ "name")]
      rfl
  | some n =>
      simp only [Option.map_some']
      rw [maybeSet_some, dictGet_set_self]

/-- C4 counterexample: the claim asks for an argument value of GuildEvent.edit
that sends scheduled_end_time as an explicit null; passing None, the only
candidate, raises AttributeError (None.isoformat()) instead of building a
body. -/
theorem C4_counterexample :
    guildEventEditBody .unset .unset .unset .unset (.given none) .unset .unset
        .unset .unset = .error .attributeError := rfl

/-- C4 as amended: GuildEvent.edit's Ellipsis sentinel does distinguish
omitted from explicitly-null description and channel_id (omitting sends
nothing, None sends null, and the two argument values are distinct); but
explicit None for scheduled_end_time raises an error instead of sending null,
and ScheduledEvent.edit uses None itself as the omission sentinel, so its
description and channel_id entries can never carry null: the entry equals the
supplied string or integer and is absent otherwise. -/
theorem C4_amended_sentinel :
    guildEventEditBody .unset .unset .unset .unset .unset .unset .unset .unset
        .unset = .ok []
    ∧ guildEventEditBody .unset .unset .unset .unset .unset (.given none)
        .unset .unset .unset = .ok [("description", Json.null)]
    ∧ guildEventEditBody .unset .unset .unset .unset .unset .unset
        (.given none) .unset .unset = .ok [("channel_id", Json.null)]
    ∧ (EditArg.unset : EditArg (Option String)) ≠ EditArg.given none
    ∧ guildEventEditBody .unset .unset .unset .unset (.given none) .unset
        .unset .unset .unset = .error .attributeError
    ∧ (∀ ch em nm pl sst set2 et de st,
        dictGet? (scheduledEventEditBody ch em nm pl sst set2 et de st)
          "description" = Option.map Json.str de)
    ∧ (∀ ch em nm pl sst set2 et de st,
        dictGet? (scheduledEventEditBody ch em nm pl sst set2 et de st)
          "channel_id" = Option.map Json.int ch) := by
  refine ⟨rfl, rfl, rfl, by decide, rfl,
    schedEditBody_description_lookup, schedEditBody_channel_lookup⟩

/-- C7 counterexample: get_users called with with_member = false on a
response entry that carries member data still constructs a member record. -/
theorem C7_counterexample :
    guildEventGetUsers false [memberUserEntry] =
      .ok [.member [("nick", Json.str "n"), ("user", Json.str "u")]] := rfl

/-- C7 as amended: fetch_users with with_member = false never constructs a
member record (its member component is always none); the guild-event variant
get_users ignores with_member when processing the response, constructing a
member exactly when an entry carries member data, as the concrete evaluations
show. -/
theorem C7_amended_fetch_users :
    (∀ (gid : Int) (entries : List (List (String × Json)))
        (res : List SEUser × Option (List SEMember)),
        scheduledEventFetchUsers gid false entries = .ok res → res.2 = none)
    ∧ (∀ (w1 w2 : Bool) (entries : List (List (String × Json))),
        guildEventGetUsers w1 entries = guildEventGetUsers w2 entries)
    ∧ guildEventGetUsers false [memberUserEntry] =
        .ok [.member [("nick", Json.str "n"), ("user", Json.str "u")]]
    ∧ scheduledEventFetchUsers 1 false [memberUserEntry] =
        .ok ([⟨Json.str "u"⟩], none) := by
  refine ⟨?_, ?_, rfl, rfl⟩
  · intro gid entries res h
    unfold scheduledEventFetchUsers at h
    cases hm : entries.mapM (fun entry => (require entry "user").map SEUser.mk) with
    | error e => rw [hm] at h; cases h
    | ok us =>
        rw [hm] at h
        simp only [Bool.false_eq_true, if_false, Except.ok.injEq] at h
        rw [← h]
  · intro w1 w2 entries
    rfl

/-- C9 counterexample: the claim's parenthesis says a null value suffices for
each required key; with privacy_level present but null, construction fails
with a TypeError inside int() rather than proceeding. -/
theorem C9_counterexample :
    ScheduledEvent_init getUserEx (dictSet samplePayload "privacy_level" Json.null) =
      .error .typeError := rfl

/-- C9 as amended: the eight listed keys must be present and erasing any one
of them from an otherwise-complete payload fails with a key-lookup error for
exactly that key (likewise in the GuildEvent variant); id, guild_id, name and
scheduled_start_time are required too, and only description and user_count
(plus creator in the GuildEvent variant) may be wholly absent; a null value
is accepted for channel_id, creator_id, scheduled_end_time, entity_id and
entity_metadata, while a null privacy_level, status or entity_type fails with
a conversion TypeError, not a key-lookup error. -/
theorem C9_amended_required_keys :
    (claimedRequiredKeys.all (fun k =>
        failsWithKey (ScheduledEvent_init getUserEx (dictErase samplePayload k)) k) = true)
    ∧ (otherRequiredKeys.all (fun k =>
        failsWithKey (ScheduledEvent_init getUserEx (dictErase samplePayload k)) k) = true)
    ∧ (decodeOk (ScheduledEvent_init getUserEx samplePayload) = true)
    ∧ (decodeOk (ScheduledEvent_init getUserEx
        (dictErase (dictErase samplePayload "description") "user_count")) = true)
    ∧ (nullTolerantKeys.all (fun k =>
        decodeOk (ScheduledEvent_init getUserEx (dictSet samplePayload k Json.null))) = true)
    ∧ (enumValuedKeys.all (fun k =>
        failsWithType (ScheduledEvent_init getUserEx (dictSet samplePayload k Json.null))) = true)
    ∧ (claimedRequiredKeys.all (fun k =>
        failsWithKey (GuildEvent_fromData (dictErase samplePayloadGE k)) k) = true)
    ∧ (decodeOk (GuildEvent_fromData samplePayloadGE) = true)
    ∧ (decodeOk (GuildEvent_fromData (dictErase (dictErase (dictErase
        samplePayloadGE "description") "user_count") "creator")) = true) :=
  ⟨rfl, rfl, rfl, rfl, rfl, rfl, rfl, rfl, rfl⟩
